import Mathlib

/-!
Shallow embedding of `torch_geometric/nn/norm/hetero_norm.py`.

The file defines a single class, `HeteroNorm(torch.nn.Module)`, with four
methods: `__init__`, `reset_parameters`, `forward` and `__repr__`.  We embed
the class as a record of optional attributes (a Python object is, for the
purposes of this file, a dictionary of attributes; an attribute that was never
assigned reads as an `AttributeError`), and each method as a function on that
record returning `Except PyError _`.

Two facts about the source file matter throughout and are embedded faithfully:

* `__init__` evaluates `Linear(self.in_channels, self.in_channels)` on
  line 45, but the name `Linear` is neither imported nor defined anywhere in
  the module (the imports are `torch`, `Tensor`, `ToHeteroLinear` and
  `Metadata`), so every call that passes the two validation checks raises a
  `NameError` at that line, after `self.in_channels` was assigned and before
  `self.hetero_linear` or `self.allow_single_element` is.

* `forward`, `reset_parameters` and `__repr__` all read `self.module`, an
  attribute that no code path of the class ever assigns (`__init__` assigns
  only `in_channels`, `hetero_linear` and `allow_single_element`), so those
  reads raise `AttributeError` on every object the class builds.

External calls (`torch.nn.functional.batch_norm`, calling the module itself)
are represented symbolically: the embedding records which call `forward`
would return, with which arguments, rather than the framework's numerics.
-/

/-- Modelled from the spec: `Metadata` (imported from
`torch_geometric.nn.typing`, which is not under `src/`), the "type metadata
schema" of a heterogeneous graph: its node types and edge types. -/
structure Metadata where
  node_types : List String
  edge_types : List (String × String × String)
deriving DecidableEq

/-- A linear layer, identified by its shape `(in_features, out_features)`. -/
structure LinearLayer where
  in_features : Int
  out_features : Int
deriving DecidableEq

/-- Modelled from the spec: `ToHeteroLinear` (imported from
`torch_geometric.nn.to_hetero_module`, which is not under `src/`), the
"type-aware linear-layer dispatcher": a wrapped linear sub-module keyed by the
type metadata schema. -/
structure ToHeteroLinear where
  wrapped : LinearLayer
  metadata : Metadata
deriving DecidableEq

/-- A two-dimensional tensor as a list of rows; `size0` is `x.size(0)`. -/
structure Tensor where
  data : List (List Rat)
deriving DecidableEq

def Tensor.size0 (t : Tensor) : Nat :=
  t.data.length

/-- The attributes that the branches of `forward` and the bodies of
`reset_parameters` and `__repr__` read off `self.module`: running statistics,
affine parameters, `eps` and `num_features`. -/
structure NormModule where
  running_mean : List Rat
  running_var : List Rat
  weight : List Rat
  bias : List Rat
  eps : Rat
  num_features : Int
deriving DecidableEq

/-- The Python exceptions the embedded code can raise. -/
inductive PyError where
  | valueError (msg : String)
  | nameError (name : String)
  | attributeError (name : String)
deriving DecidableEq

deriving instance DecidableEq for Except

/-- Reading attribute `name` off an object: an attribute that was never
assigned raises `AttributeError`. -/
def pyGetattr {α : Type} (v : Option α) (name : String) : Except PyError α :=
  match v with
  | some a => Except.ok a
  | none => Except.error (PyError.attributeError name)

/-- The attribute dictionary of a `HeteroNorm` object.  The fields are exactly
the attributes assigned by some code path of the class (`__init__` assigns
`in_channels`, `hetero_linear` and `allow_single_element`) together with
`module`, which the other three methods read but which no code path ever
assigns. -/
structure HeteroNorm where
  in_channels : Option Int
  hetero_linear : Option ToHeteroLinear
  allow_single_element : Option Bool
  module : Option NormModule
deriving DecidableEq

/-- A freshly allocated object, before `__init__` has assigned anything. -/
def emptyHeteroNorm : HeteroNorm :=
  ⟨none, none, none, none⟩

/-- The arguments of `HeteroNorm.__init__` (floats embedded as rationals). -/
structure InitArgs where
  in_channels : Int
  norm_type : String
  metadata : Metadata
  eps : Rat
  momentum : Rat
  affine : Bool
  track_running_stats : Bool
  allow_single_element : Bool
deriving DecidableEq

/-- Python's `str.lower()`, modelled on the string's character list (the
validation strings are ASCII, on which `Char.toLower` agrees with Python). -/
def pyLower (s : String) : String :=
  String.mk (s.data.map Char.toLower)

/-- The list literal of the first validation check. -/
def validNormTypes : List String :=
  ["batchnorm", "instancenorm", "layernorm"]

/-- Message of the first `ValueError` of `__init__`. -/
def normTypeErrorMsg : String :=
  "Please choose norm type from \x22BatchNorm\x22, \x22InstanceNorm\x22, \x22LayerNorm\x22"

/-- Message of the second `ValueError` of `__init__`. -/
def singleElementErrorMsg : String :=
  "\x27allow_single_element\x27 requires \x27track_running_stats\x27 to be set to \x60True\x60"

/-- `HeteroNorm.__init__`, step by step: the two validation checks run first;
if either fails, a `ValueError` is raised with no attribute assigned.
Otherwise `self.in_channels` is assigned, and then the assignment
`self.hetero_linear = ToHeteroLinear(Linear(self.in_channels,
self.in_channels), metadata)` evaluates the name `Linear`, which the module
neither imports nor defines, so a `NameError` is raised there;
`self.hetero_linear` and `self.allow_single_element` are never assigned.
Returns the raised exception together with the object's final attributes. -/
def HeteroNorm.init (a : InitArgs) : Except PyError Unit × HeteroNorm :=
  if pyLower a.norm_type ∉ validNormTypes then
    (Except.error (PyError.valueError normTypeErrorMsg), emptyHeteroNorm)
  else if a.allow_single_element && !a.track_running_stats then
    (Except.error (PyError.valueError singleElementErrorMsg), emptyHeteroNorm)
  else
    (Except.error (PyError.nameError "Linear"),
      { emptyHeteroNorm with in_channels := some a.in_channels })

/-- The value `forward` returns, represented symbolically: either the result
of `torch.nn.functional.batch_norm` with the recorded arguments, or the result
of the standard call `self.module(x)`. -/
inductive FwdResult where
  | batchNormOut (x : Tensor) (running_mean running_var weight bias : List Rat)
      (training : Bool) (momentum : Rat) (eps : Rat)
  | moduleOut (m : NormModule) (x : Tensor)
deriving DecidableEq

/-- The guard of `forward`: `self.allow_single_element and x.size(0) <= 1`. -/
def HeteroNorm.singleElementGuard (allow_single : Bool) (x : Tensor) : Bool :=
  allow_single && decide (x.size0 ≤ 1)

/-- The then-branch of `forward`:
`torch.nn.functional.batch_norm(x, self.module.running_mean,
self.module.running_var, self.module.weight, self.module.bias, False, 0.0,
self.module.eps)`.  The argument `self.module.running_mean` is evaluated
before the call, so an object without a `module` attribute raises
`AttributeError` here. -/
def HeteroNorm.singleElementBranch (s : HeteroNorm) (x : Tensor) :
    Except PyError FwdResult := do
  let m ← pyGetattr s.module "module"
  pure (FwdResult.batchNormOut x m.running_mean m.running_var m.weight m.bias
    false 0 m.eps)

/-- The else-branch of `forward`: `return self.module(x)`. -/
def HeteroNorm.delegateBranch (s : HeteroNorm) (x : Tensor) :
    Except PyError FwdResult := do
  let m ← pyGetattr s.module "module"
  pure (FwdResult.moduleOut m x)

/-- `HeteroNorm.forward`. -/
def HeteroNorm.forward (s : HeteroNorm) (x : Tensor) :
    Except PyError FwdResult := do
  let allow_single ← pyGetattr s.allow_single_element "allow_single_element"
  if HeteroNorm.singleElementGuard allow_single x then
    s.singleElementBranch x
  else
    s.delegateBranch x

/-- `HeteroNorm.reset_parameters`: `self.module.reset_parameters()`.  The
framework call itself is external; what the embedding records is the attribute
read that precedes it. -/
def HeteroNorm.reset_parameters (s : HeteroNorm) : Except PyError Unit := do
  let _m ← pyGetattr s.module "module"
  pure ()

/-- `HeteroNorm.__repr__`:
`f'{self.__class__.__name__}({self.module.num_features})'`. -/
def HeteroNorm.repr (s : HeteroNorm) : Except PyError String := do
  let m ← pyGetattr s.module "module"
  pure ("HeteroNorm(" ++ toString m.num_features ++ ")")

/-- A concrete metadata schema used in witnesses. -/
def mdPaper : Metadata :=
  ⟨["paper"], [("paper", "cites", "paper")]⟩

/-- A concrete dispatcher used in witnesses. -/
def thlPaper : ToHeteroLinear :=
  ⟨⟨2, 2⟩, mdPaper⟩

/-- Membership in the validation list, spelled out. -/
theorem mem_validNormTypes_iff (t : String) :
    t ∈ validNormTypes ↔
      (t = "batchnorm" ∨ t = "instancenorm" ∨ t = "layernorm") := by
  simp [validNormTypes]

/-- C1: the claim says `forward` either returns the functional
batch-normalization result or the wrapped sub-module's result.  On the code it
does neither: both branches read `self.module`, an attribute `__init__` never
assigns (it assigns only `in_channels`, `hetero_linear` and
`allow_single_element`), so on an object with exactly those attributes —
evaluated here once with the single-element guard true (`x.size(0) = 1`) and
once with it false (`x.size(0) = 2`) — `forward` raises `AttributeError`
instead of returning a value. -/
theorem forward_raises_attribute_error_both_branches :
    HeteroNorm.forward ⟨some 2, some thlPaper, some true, none⟩ ⟨[[1, 2]]⟩ =
        Except.error (PyError.attributeError "module") ∧
      HeteroNorm.forward ⟨some 2, some thlPaper, some true, none⟩ ⟨[[1, 2], [3, 4]]⟩ =
        Except.error (PyError.attributeError "module") := by
  decide

/-- C2: the claim says a validating call to `__init__` succeeds and assigns
the wrapped dispatcher.  On the code it does not: the name `Linear` is neither
imported nor defined in the module, so the call raises `NameError` after
assigning `in_channels` and before assigning `hetero_linear` or
`allow_single_element`; evaluated here at valid arguments
`(2, "BatchNorm", metadata, 1e-5, 0.1, True, True, False)`. -/
theorem init_valid_args_raises_name_error :
    HeteroNorm.init ⟨2, "BatchNorm", mdPaper, 1 / 100000, 1 / 10, true, true, false⟩ =
      (Except.error (PyError.nameError "Linear"),
        { emptyHeteroNorm with in_channels := some 2 }) := by
  decide

/-- C3: `__init__` raises a `ValueError` if and only if the lower-cased
`norm_type` is not one of `"batchnorm"`, `"instancenorm"`, `"layernorm"`, or
`allow_single_element` is true while `track_running_stats` is false; in
particular the check is case-insensitive in `norm_type`. -/
theorem init_value_error_iff_invalid_args (a : InitArgs) :
    (∃ msg, (HeteroNorm.init a).1 = Except.error (PyError.valueError msg)) ↔
      (¬ (pyLower a.norm_type = "batchnorm" ∨ pyLower a.norm_type = "instancenorm" ∨
          pyLower a.norm_type = "layernorm") ∨
        (a.allow_single_element = true ∧ a.track_running_stats = false)) := by
  by_cases h1 : pyLower a.norm_type ∈ validNormTypes
  · by_cases h2 : a.allow_single_element = true ∧ a.track_running_stats = false
    · have e : (HeteroNorm.init a).1 =
          Except.error (PyError.valueError singleElementErrorMsg) := by
        unfold HeteroNorm.init
        rw [if_neg (not_not_intro h1), if_pos (by simp [h2.1, h2.2])]
      exact ⟨fun _ => Or.inr h2, fun _ => ⟨singleElementErrorMsg, e⟩⟩
    · have e : (HeteroNorm.init a).1 = Except.error (PyError.nameError "Linear") := by
        unfold HeteroNorm.init
        rw [if_neg (not_not_intro h1), if_neg (by simpa using h2)]
      constructor
      · intro ⟨msg, hmsg⟩
        rw [e] at hmsg
        exact absurd hmsg (by simp)
      · intro hr
        rcases hr with hl | hr
        · exact absurd ((mem_validNormTypes_iff _).mp h1) hl
        · exact absurd hr h2
  · have e : (HeteroNorm.init a).1 = Except.error (PyError.valueError normTypeErrorMsg) := by
      unfold HeteroNorm.init
      rw [if_pos h1]
    exact ⟨fun _ => Or.inl (fun hd => h1 ((mem_validNormTypes_iff _).mpr hd)),
      fun _ => ⟨normTypeErrorMsg, e⟩⟩

/-- C4: the claim says the single-element special case calls functional batch
normalization with training disabled and momentum `0.0`, reading the stored
running statistics.  On the code that call is never reached: evaluating its
second argument `self.module.running_mean` raises `AttributeError`, because
`self.module` is never assigned.  Evaluated here at an object with
`allow_single_element` true and an input with `x.size(0) = 1`, so the guard of
the special case is taken, yet `forward` raises instead of calling
`batch_norm`. -/
theorem single_element_case_raises_before_batch_norm :
    HeteroNorm.singleElementGuard true ⟨[[5, 6]]⟩ = true ∧
      HeteroNorm.forward ⟨some 4, some thlPaper, some true, none⟩ ⟨[[5, 6]]⟩ =
        Except.error (PyError.attributeError "module") := by
  decide

/-- C5: `__init__` validates before it constructs: whenever either validation
check fails, a `ValueError` is raised and the object is left with no attribute
assigned — `in_channels`, `hetero_linear`, `allow_single_element` and `module`
all unset. -/
theorem failed_validation_assigns_nothing (a : InitArgs)
    (h : ¬ (pyLower a.norm_type = "batchnorm" ∨ pyLower a.norm_type = "instancenorm" ∨
        pyLower a.norm_type = "layernorm") ∨
      (a.allow_single_element = true ∧ a.track_running_stats = false)) :
    (∃ msg, (HeteroNorm.init a).1 = Except.error (PyError.valueError msg)) ∧
      (HeteroNorm.init a).2.in_channels = none ∧
      (HeteroNorm.init a).2.hetero_linear = none ∧
      (HeteroNorm.init a).2.allow_single_element = none ∧
      (HeteroNorm.init a).2.module = none := by
  by_cases h1 : pyLower a.norm_type ∈ validNormTypes
  · have h2 : a.allow_single_element = true ∧ a.track_running_stats = false := by
      rcases h with hl | hr
      · exact absurd ((mem_validNormTypes_iff _).mp h1) hl
      · exact hr
    have e : HeteroNorm.init a =
        (Except.error (PyError.valueError singleElementErrorMsg), emptyHeteroNorm) := by
      unfold HeteroNorm.init
      rw [if_neg (not_not_intro h1), if_pos (by simp [h2.1, h2.2])]
    rw [e]
    exact ⟨⟨singleElementErrorMsg, rfl⟩, rfl, rfl, rfl, rfl⟩
  · have e : HeteroNorm.init a =
        (Except.error (PyError.valueError normTypeErrorMsg), emptyHeteroNorm) := by
      unfold HeteroNorm.init
      rw [if_pos h1]
    rw [e]
    exact ⟨⟨normTypeErrorMsg, rfl⟩, rfl, rfl, rfl, rfl⟩

/-- Witness for C5 at the invalid norm type `"groupnorm"`. -/
theorem failed_validation_assigns_nothing_witness :
    (∃ msg, (HeteroNorm.init ⟨2, "groupnorm", mdPaper, 1, 1, true, true, false⟩).1 =
        Except.error (PyError.valueError msg)) ∧
      (HeteroNorm.init ⟨2, "groupnorm", mdPaper, 1, 1, true, true, false⟩).2.in_channels = none ∧
      (HeteroNorm.init ⟨2, "groupnorm", mdPaper, 1, 1, true, true, false⟩).2.hetero_linear = none ∧
      (HeteroNorm.init ⟨2, "groupnorm", mdPaper, 1, 1, true, true, false⟩).2.allow_single_element
        = none ∧
      (HeteroNorm.init ⟨2, "groupnorm", mdPaper, 1, 1, true, true, false⟩).2.module = none :=
  failed_validation_assigns_nothing ⟨2, "groupnorm", mdPaper, 1, 1, true, true, false⟩
    (Or.inl (by decide))

/-- C6: the claim says the forward pass dispatches the computation through the
metadata-keyed dispatcher `hetero_linear`.  On the code `forward` never reads
`hetero_linear` at all: evaluated here at two objects that differ only in
their `hetero_linear` attribute, `forward` returns the same thing — and that
thing is an `AttributeError` for the unassigned `self.module`, not a value
produced by the dispatcher. -/
theorem forward_never_uses_hetero_linear :
    HeteroNorm.forward ⟨some 2, some thlPaper, some false, none⟩ ⟨[[1, 2]]⟩ =
        HeteroNorm.forward ⟨some 2, some ⟨⟨7, 9⟩, ⟨[], []⟩⟩, some false, none⟩ ⟨[[1, 2]]⟩ ∧
      HeteroNorm.forward ⟨some 2, some thlPaper, some false, none⟩ ⟨[[1, 2]]⟩ =
        Except.error (PyError.attributeError "module") := by
  decide

/-- C7: on any object whose attributes are those `__init__` assigns
(`allow_single_element` present, `module` absent), the else-branch of
`forward`, `reset_parameters` and `__repr__` all raise
`AttributeError("module")`: each reads `self.module`, which no code path of
the class ever assigns. -/
theorem module_never_assigned_methods_raise (s : HeteroNorm) (x : Tensor) (b : Bool)
    (hase : s.allow_single_element = some b)
    (hmod : s.module = none)
    (hguard : HeteroNorm.singleElementGuard b x = false) :
    HeteroNorm.forward s x = Except.error (PyError.attributeError "module") ∧
      HeteroNorm.reset_parameters s = Except.error (PyError.attributeError "module") ∧
      HeteroNorm.repr s = Except.error (PyError.attributeError "module") := by
  refine ⟨?_, ?_, ?_⟩
  · simp [HeteroNorm.forward, HeteroNorm.delegateBranch, pyGetattr, hase, hmod, hguard,
      Bind.bind, Except.bind]
  · simp [HeteroNorm.reset_parameters, pyGetattr, hmod, Bind.bind, Except.bind]
  · simp [HeteroNorm.repr, pyGetattr, hmod, Bind.bind, Except.bind]

/-- Witness for C7 at a concrete object with `allow_single_element = False`
and an input of size 2. -/
theorem module_never_assigned_methods_raise_witness :
    HeteroNorm.forward ⟨some 2, some thlPaper, some false, none⟩ ⟨[[1, 2], [3, 4]]⟩ =
        Except.error (PyError.attributeError "module") ∧
      HeteroNorm.reset_parameters ⟨some 2, some thlPaper, some false, none⟩ =
        Except.error (PyError.attributeError "module") ∧
      HeteroNorm.repr ⟨some 2, some thlPaper, some false, none⟩ =
        Except.error (PyError.attributeError "module") :=
  module_never_assigned_methods_raise ⟨some 2, some thlPaper, some false, none⟩
    ⟨[[1, 2], [3, 4]]⟩ false rfl rfl (by decide)

/-- C8: with `allow_single_element` true, an empty batch (`x.size(0) = 0`)
also takes the single-element special case: the guard of `forward` tests
`x.size(0) <= 1`, not `x.size(0) == 1`, so it is true and `forward` runs the
batch-normalization branch. -/
theorem empty_batch_takes_single_element_branch (s : HeteroNorm) (x : Tensor)
    (hase : s.allow_single_element = some true)
    (hx : x.size0 = 0) :
    HeteroNorm.singleElementGuard true x = true ∧
      HeteroNorm.forward s x = HeteroNorm.singleElementBranch s x := by
  have hg : HeteroNorm.singleElementGuard true x = true := by
    simp [HeteroNorm.singleElementGuard, hx]
  refine ⟨hg, ?_⟩
  simp [HeteroNorm.forward, pyGetattr, hase, hg, Bind.bind, Except.bind]

/-- Witness for C8 at a concrete object and the empty input tensor. -/
theorem empty_batch_takes_single_element_branch_witness :
    HeteroNorm.singleElementGuard true ⟨[]⟩ = true ∧
      HeteroNorm.forward ⟨some 2, some thlPaper, some true, none⟩ ⟨[]⟩ =
        HeteroNorm.singleElementBranch ⟨some 2, some thlPaper, some true, none⟩ ⟨[]⟩ :=
  empty_batch_takes_single_element_branch ⟨some 2, some thlPaper, some true, none⟩ ⟨[]⟩
    rfl rfl

/-- C9: the arguments `norm_type`, `eps`, `momentum`, `affine` and
`track_running_stats` influence only validation: two calls of `__init__` that
both pass validation and agree on `in_channels`, `metadata` and
`allow_single_element` produce identical outcomes — the same raised exception
and the same object attributes — and therefore identical `forward` behavior on
every input. -/
theorem extra_args_influence_only_validation (a b : InitArgs)
    (ha1 : pyLower a.norm_type ∈ validNormTypes)
    (ha2 : (a.allow_single_element && !a.track_running_stats) = false)
    (hb1 : pyLower b.norm_type ∈ validNormTypes)
    (hb2 : (b.allow_single_element && !b.track_running_stats) = false)
    (hin : a.in_channels = b.in_channels)
    (_hmd : a.metadata = b.metadata)
    (_hase : a.allow_single_element = b.allow_single_element) :
    HeteroNorm.init a = HeteroNorm.init b ∧
      ∀ x, ((HeteroNorm.init a).2).forward x = ((HeteroNorm.init b).2).forward x := by
  have e : HeteroNorm.init a = HeteroNorm.init b := by
    unfold HeteroNorm.init
    rw [if_neg (not_not_intro ha1), if_neg (by simp [ha2]),
      if_neg (not_not_intro hb1), if_neg (by simp [hb2]), hin]
  exact ⟨e, fun x => by rw [e]⟩

/-- Witness for C9: two validating calls that differ in `norm_type`
capitalization and value, `eps`, `momentum`, `affine` and
`track_running_stats`. -/
theorem extra_args_influence_only_validation_witness :
    HeteroNorm.init ⟨3, "BatchNorm", mdPaper, 1, 1 / 10, true, true, false⟩ =
      HeteroNorm.init ⟨3, "layernorm", mdPaper, 2, 3, false, false, false⟩ :=
  (extra_args_influence_only_validation
    ⟨3, "BatchNorm", mdPaper, 1, 1 / 10, true, true, false⟩
    ⟨3, "layernorm", mdPaper, 2, 3, false, false, false⟩
    (by decide) (by decide) (by decide) (by decide) rfl rfl rfl).1
